import Mathlib

/-!
Verification of the bytecode execution core in `src/vm.c`.

The development is a shallow embedding of the parts of `vm.c` the checked
claims are about.  Conventions:

* A `Value` is a 64-bit word modelled as `ℕ` (always `< 2^64` where it
  matters; the C bitwise operators `|`, `&`, `<<`, `>>` become `|||`,
  `&&&`, `<<<`, `>>>` on `ℕ`).
* C pointers into the instruction buffer and the register stack are
  modelled as offsets (`pc` an instruction-byte offset, `sp` a register
  index); heap pointers are modelled as addresses keyed into an
  association list.
* External collaborators (`z*` functions, declared in `vm.h` and defined
  outside this repository) and IEEE-754 double arithmetic (not shallowly
  embeddable) are taken as parameters in an `Extern` record; theorems hold
  for every instantiation.
* Numeric constants declared only in `vm.h` (absent from the sources) are
  fields of the `Hdr` record and are used abstractly.
-/

/-! ## Value representation (vm.c lines 14-75) -/

def SIGN_MASK : ℕ := 1 <<< 63

def TAGGED_VALUE_MASK : ℕ := 0x7ffc000000000000

def TAG_MASK : ℕ := (1 <<< 3) - 1

def TAGGED_PRIMITIVE_MASK : ℕ := TAGGED_VALUE_MASK ||| (TAG_MASK <<< 32)

def TAG_NONE : ℕ := 0

def TAG_BOOLEAN : ℕ := 1

def TAG_ERROR : ℕ := 2

def TAG_INTEGER : ℕ := 7

def INTEGER_MASK : ℕ := TAGGED_VALUE_MASK ||| (TAG_INTEGER <<< 32)

def BOOLEAN_MASK : ℕ := TAGGED_VALUE_MASK ||| (TAG_BOOLEAN <<< 32)

def FALSE_MASK : ℕ := BOOLEAN_MASK

def TRUE_MASK : ℕ := BOOLEAN_MASK ||| 1

def NONE_MASK : ℕ := TAGGED_VALUE_MASK ||| (TAG_NONE <<< 32)

def POINTER_MASK : ℕ := TAGGED_VALUE_MASK ||| SIGN_MASK

def ERROR_MASK : ℕ := TAGGED_VALUE_MASK ||| (TAG_ERROR <<< 32)

def NULL_U32 : ℕ := 2 ^ 32 - 1

/-- The C `(uint64_t)n` conversion of an `int32_t` (or of any signed value):
reduction mod `2^64`, which sign-extends negative inputs. -/
def toU64 (n : ℤ) : ℕ := (n % (2 ^ 64 : ℤ)).toNat

/-- `VALUE_INTEGER(n)`: `INTEGER_MASK | n`, where the C integer promotion
converts the `int32_t` operand to `uint64_t` before the `|`. -/
def VALUE_INTEGER (n : ℤ) : ℕ := INTEGER_MASK ||| toU64 n

/-- `VALUE_AS_INTEGER(v)`: the low 32 bits reinterpreted as a signed
32-bit integer. -/
def VALUE_AS_INTEGER (v : ℕ) : ℤ :=
  if v % 2 ^ 32 < 2 ^ 31 then ((v % 2 ^ 32 : ℕ) : ℤ) else ((v % 2 ^ 32 : ℕ) : ℤ) - 2 ^ 32

def VALUE_BOOLEAN (b : Bool) : ℕ := if b then TRUE_MASK else FALSE_MASK

def VALUE_NONE : ℕ := NONE_MASK

/-- `VALUE_RETINFO(nrv, rf, cio)`. -/
def VALUE_RETINFO (nrv rf cio : ℕ) : ℕ := nrv ||| (rf <<< 8) ||| (cio <<< 16)

/-- `VALUE_AS_HEAPOBJECT(v)`: the pointer is the word with the
`POINTER_MASK` bits cleared (`v & ~POINTER_MASK`). -/
def VALUE_AS_HEAPOBJECT (v : ℕ) : ℕ := v &&& (2 ^ 64 - 1 - POINTER_MASK)

def VALUE_IS_NUMBER (v : ℕ) : Bool := (v &&& TAGGED_VALUE_MASK) != TAGGED_VALUE_MASK

def VALUE_IS_POINTER (v : ℕ) : Bool := (v &&& POINTER_MASK) == POINTER_MASK

def VALUE_IS_ERROR (v : ℕ) : Bool := (v &&& (TAGGED_PRIMITIVE_MASK ||| SIGN_MASK)) == ERROR_MASK

def VALUE_BOTH_NUMBERS (v1 v2 : ℕ) : Bool := VALUE_IS_NUMBER v1 && VALUE_IS_NUMBER v2

def VALUE_GET_TAG (v : ℕ) : ℕ := (v >>> 32) &&& TAG_MASK

def VALUE_RETINFO_NUMRETVALS (v : ℕ) : ℕ := v &&& 0xff

def VALUE_RETINFO_RETFLAG (v : ℕ) : ℕ := (v &&& 0xff00) >>> 8

/-! ## Bit-level helper lemmas -/

theorem lor_mod_two_pow (a b k : ℕ) : (a ||| b) % 2 ^ k = a % 2 ^ k ||| b % 2 ^ k := by
  apply Nat.eq_of_testBit_eq
  intro i
  rw [Nat.testBit_mod_two_pow, Nat.testBit_lor, Nat.testBit_lor,
    Nat.testBit_mod_two_pow, Nat.testBit_mod_two_pow]
  by_cases h : i < k <;> simp [h]

theorem land_mod_two_pow (a b k : ℕ) : (a &&& b) % 2 ^ k = a % 2 ^ k &&& b % 2 ^ k := by
  apply Nat.eq_of_testBit_eq
  intro i
  rw [Nat.testBit_mod_two_pow, Nat.testBit_land, Nat.testBit_land,
    Nat.testBit_mod_two_pow, Nat.testBit_mod_two_pow]
  by_cases h : i < k <;> simp [h]

theorem lor_shiftRight (a b k : ℕ) : (a ||| b) >>> k = a >>> k ||| b >>> k := by
  apply Nat.eq_of_testBit_eq
  intro i
  rw [Nat.testBit_shiftRight, Nat.testBit_lor, Nat.testBit_lor,
    Nat.testBit_shiftRight, Nat.testBit_shiftRight]

theorem land_shiftRight (a b k : ℕ) : (a &&& b) >>> k = a >>> k &&& b >>> k := by
  apply Nat.eq_of_testBit_eq
  intro i
  rw [Nat.testBit_shiftRight, Nat.testBit_land, Nat.testBit_land,
    Nat.testBit_shiftRight, Nat.testBit_shiftRight]

theorem eq_of_high_low (a b : ℕ) (hh : a >>> 32 = b >>> 32) (hl : a % 2 ^ 32 = b % 2 ^ 32) :
    a = b := by
  rw [Nat.shiftRight_eq_div_pow, Nat.shiftRight_eq_div_pow] at hh
  omega

/-- Shared fact: encoding an in-range integer keeps the low 32 bits intact. -/
theorem VALUE_INTEGER_mod_two_pow_32 (n : ℤ) : VALUE_INTEGER n % 2 ^ 32 = toU64 n % 2 ^ 32 := by
  rw [VALUE_INTEGER, lor_mod_two_pow]
  have h : INTEGER_MASK % 2 ^ 32 = 0 := by decide
  rw [h, Nat.zero_or]

/-- Shared fact: for a negative in-range integer the encoded word has all of
its high 32 bits set. -/
theorem VALUE_INTEGER_neg_high (n : ℤ) (h1 : -2 ^ 31 ≤ n) (h2 : n < 0) :
    VALUE_INTEGER n >>> 32 = 2 ^ 32 - 1 := by
  rw [VALUE_INTEGER, lor_shiftRight]
  have hm : INTEGER_MASK >>> 32 = 0x7ffc0007 := by decide
  have hu : toU64 n >>> 32 = 2 ^ 32 - 1 := by
    rw [toU64, Nat.shiftRight_eq_div_pow]
    have hk : (((n % (2 ^ 64 : ℤ)).toNat : ℤ)) = n % 2 ^ 64 :=
      Int.toNat_of_nonneg (Int.emod_nonneg n (by norm_num))
    omega
  rw [hm, hu]
  decide

/-- Shared fact: a word whose high 32 bits are all set satisfies the pointer
predicate. -/
theorem pointer_of_high_ones (v : ℕ) (hh : v >>> 32 = 2 ^ 32 - 1) :
    VALUE_IS_POINTER v = true := by
  have hand : v &&& POINTER_MASK = POINTER_MASK := by
    apply eq_of_high_low
    · rw [land_shiftRight, hh]
      decide
    · rw [land_mod_two_pow]
      have h0 : POINTER_MASK % 2 ^ 32 = 0 := by decide
      rw [h0, Nat.and_zero]
  simp [VALUE_IS_POINTER, hand]

/-! ## VM data model -/

/-- A frame of `vm->tryStack` (`TryFrame` in vm.h): `fp` is the saved stack
base (modelled as a register index), `catchPc` an instruction offset. -/
structure TryFrame where
  fp : ℕ
  catchPc : ℕ
  catchErrDst : ℕ
deriving DecidableEq, Inhabited

/-- A heap object: the common header `(typeId, rc)` plus the `Fiber`
field `pcOffset` needed by `Coresume`.  Payload fields of the other
object shapes are not touched by the claims and are omitted. -/
structure HeapObj where
  typeId : ℕ
  rc : ℕ
  pcOffset : ℕ
deriving DecidableEq, Inhabited

/-- `vm->curFiber->panicType` (`PANIC_*` in vm.h). -/
inductive PanicT where
  | nonePanic
  | staticMsg
  | msg
  | inflightOom
deriving DecidableEq

/-- `ResultCode` (`RES_CODE_*` in vm.h). -/
inductive ResultCode where
  | success
  | panic
  | stackOverflow
  | oom
  | unknown
deriving DecidableEq

/-- The VM state visible to the modelled opcode cases: the instruction
buffer (self-modifiable), the current fiber register array with the frame
base `sp` (`stack` in C, a pointer; here an index), the byte offset `pc`,
the end-of-stack bound (`vm->stackEndPtr`, an index), the try stack
(buffer plus `len`; `cap` is the buffer length), the current fiber panic
state, the heap as an address-keyed association list, and the address of
the current fiber object. -/
structure VMState where
  inst : List ℕ
  regs : List ℕ
  sp : ℕ
  pc : ℕ
  stackEnd : ℕ
  tryBuf : List TryFrame
  tryLen : ℕ
  panicType : PanicT
  panicPayload : String
  heap : List (ℕ × HeapObj)
  curFiber : ℕ
deriving DecidableEq

/-- Result of one opcode case: fall through to `NEXT()`, leave the loop
via `RETURN(code)`, or abort via `zFatal()` (which never returns). -/
inductive StepResult where
  | next (s : VMState)
  | ret (code : ResultCode) (s : VMState)
  | fatal
deriving DecidableEq

/-- `stack[i]` of the current frame.  Out-of-range reads return 0 (the C
read would be indeterminate). -/
def stackGet (s : VMState) (i : ℕ) : ℕ := s.regs.getD (s.sp + i) 0

/-- `stack[i] = v`.  Out-of-range writes are dropped
(`List.set` is the identity there; the C write would be out of bounds). -/
def stackSet (s : VMState) (i : ℕ) (v : ℕ) : VMState :=
  { s with regs := s.regs.set (s.sp + i) v }

/-- `pc[i]`: instruction byte at offset `i` from the current `pc`. -/
def instGet (s : VMState) (i : ℕ) : ℕ := s.inst.getD (s.pc + i) 0

/-- Write one instruction byte at an absolute offset (IC self-modification). -/
def instSetAbs (s : VMState) (off b : ℕ) : VMState :=
  { s with inst := s.inst.set off b }

/-- Instruction byte at an absolute offset. -/
def instGetAbs (s : VMState) (off : ℕ) : ℕ := s.inst.getD off 0

/-- `READ_U16(offset)` (little-endian). -/
def READ_U16 (s : VMState) (off : ℕ) : ℕ := instGet s off ||| (instGet s (off + 1) <<< 8)

/-- `READ_U32(offset)` (little-endian). -/
def READ_U32 (s : VMState) (off : ℕ) : ℕ :=
  instGet s off ||| (instGet s (off + 1) <<< 8) ||| (instGet s (off + 2) <<< 16) |||
    (instGet s (off + 3) <<< 24)

/-- `READ_U48(offset)` (little-endian). -/
def READ_U48 (s : VMState) (off : ℕ) : ℕ :=
  instGet s off ||| (instGet s (off + 1) <<< 8) ||| (instGet s (off + 2) <<< 16) |||
    (instGet s (off + 3) <<< 24) ||| (instGet s (off + 4) <<< 32) |||
    (instGet s (off + 5) <<< 40)

/-- First binding of an address in the heap association list. -/
def heapFind : List (ℕ × HeapObj) → ℕ → Option HeapObj
  | [], _ => none
  | (a, o) :: t, addr => if a = addr then some o else heapFind t addr

/-- Replace the first binding of an address. -/
def heapSet : List (ℕ × HeapObj) → ℕ → HeapObj → List (ℕ × HeapObj)
  | [], _, _ => []
  | (a, o) :: t, addr, o2 => if a = addr then (a, o2) :: t else (a, o) :: heapSet t addr o2

/-- Drop the first binding of an address (storage returned to the allocator). -/
def heapRemove : List (ℕ × HeapObj) → ℕ → List (ℕ × HeapObj)
  | [], _ => []
  | (a, o) :: t, addr => if a = addr then t else (a, o) :: heapRemove t addr

/-- Dereference a heap address; a dangling address yields the default
object (the C dereference would be undefined). -/
def heapGet (h : List (ℕ × HeapObj)) (addr : ℕ) : HeapObj := (heapFind h addr).getD default

/-- `releaseObject(vm, obj)` (vm.c lines 150-172): `rc -= 1`; on reaching
zero the object is freed (`zFreeObject` is external; modelled as dropping
the binding). -/
def releaseObject (h : List (ℕ × HeapObj)) (addr : ℕ) : List (ℕ × HeapObj) :=
  match heapFind h addr with
  | none => h
  | some o => if o.rc - 1 = 0 then heapRemove h addr else heapSet h addr { o with rc := o.rc - 1 }

/-- `release(vm, val)` (vm.c lines 119-148): a no-op on non-pointers. -/
def releaseValue (h : List (ℕ × HeapObj)) (v : ℕ) : List (ℕ × HeapObj) :=
  if VALUE_IS_POINTER v then releaseObject h (VALUE_AS_HEAPOBJECT v) else h

def expectedNumberMsg : String := "Expected number operand."

def notAnErrorMsg : String := "Not an error."

/-- `panicStaticMsg(vm, msg)` (vm.c lines 444-448): records the message on
the current fiber (the C payload packs pointer and length; the model keeps
the string itself). -/
def panicStaticMsg (s : VMState) (m : String) : VMState :=
  { s with panicPayload := m, panicType := PanicT.staticMsg }

/-- `panicExpectedNumber(vm)` (vm.c lines 450-452). -/
def panicExpectedNumber (s : VMState) : VMState := panicStaticMsg s expectedNumberMsg

/-- External collaborators and IEEE-754 double arithmetic, taken as
parameters: the `f*` fields model the C double operations on the 64-bit
bit patterns (`VALUE_NUMBER`/`VALUE_AS_NUMBER` are bit casts), the `z*`
fields model the external `z*` helpers declared in vm.h. -/
structure Extern where
  fadd : ℕ → ℕ → ℕ
  fsub : ℕ → ℕ → ℕ
  fmul : ℕ → ℕ → ℕ
  fdiv : ℕ → ℕ → ℕ
  fpow : ℕ → ℕ → ℕ
  fmodOp : ℕ → ℕ → ℕ
  fneg : ℕ → ℕ
  flt : ℕ → ℕ → Bool
  fgt : ℕ → ℕ → Bool
  fle : ℕ → ℕ → Bool
  fge : ℕ → ℕ → Bool
  feq : ℕ → ℕ → Bool
  zOtherToF64 : ℕ → ℕ
  zGrowTryCode : ResultCode
  zGrowTryNewCap : ℕ
  zThrow : VMState → ℕ → ResultCode × VMState × ℕ × ℕ
  zPushFiber : VMState → ℕ → ℕ → ℕ → VMState

/-- Numeric constants declared in `vm.h`.  Modelled from the spec: vm.h is
not among the sources; the constants are kept abstract so every theorem
holds for each instantiation. -/
structure Hdr where
  TYPE_NUMBER : ℕ
  TYPE_FIBER : ℕ
  CALL_SYM_INST_LEN : ℕ
  SEMA_TYPE_ANY : ℕ
  SEMA_TYPE_DYNAMIC : ℕ
  SEMA_TYPE_STRING : ℕ
  SEMA_TYPE_STATICSTRING : ℕ

/-- `toF64(val)` (vm.c lines 212-218): numbers are returned as-is
(a bit cast in C), other values go through the external helper. -/
def toF64 (ext : Extern) (v : ℕ) : ℕ := if VALUE_IS_NUMBER v then v else ext.zOtherToF64 v

/-- `getPrimitiveTypeId(val)` (vm.c lines 220-226). -/
def getPrimitiveTypeId (h : Hdr) (v : ℕ) : ℕ :=
  if VALUE_IS_NUMBER v then h.TYPE_NUMBER else VALUE_GET_TAG v

/-- `getTypeId(val)` (vm.c lines 228-234). -/
def getTypeId (h : Hdr) (s : VMState) (v : ℕ) : ℕ :=
  if VALUE_IS_POINTER v then (heapGet s.heap (VALUE_AS_HEAPOBJECT v)).typeId
  else getPrimitiveTypeId h v

/-- `isTypeSymCompat(typeSymId, cstrType)` (vm.c lines 253-264). -/
def isTypeSymCompat (h : Hdr) (typeSymId cstrType : ℕ) : Bool :=
  if typeSymId = cstrType then true
  else if cstrType = h.SEMA_TYPE_ANY ∨ cstrType = h.SEMA_TYPE_DYNAMIC then true
  else if cstrType = h.SEMA_TYPE_STRING ∧ typeSymId = h.SEMA_TYPE_STATICSTRING then true
  else false

/-! ## Opcode byte values, from the jump-table order in `execBytecode`
(vm.c lines 521-621): `jumpTable` is indexed by the opcode byte, so the
entry positions fix the `Code*` values. -/

def CodeCallObjSym : ℕ := 25

def CodeForRange : ℕ := 90

def CodeForRangeReverse : ℕ := 91

/-! ## Opcode cases of `execBytecode` -/

/-- `CASE(Add)` (vm.c lines 666-677). -/
def caseAdd (ext : Extern) (s : VMState) : StepResult :=
  let left := stackGet s (instGet s 1)
  let right := stackGet s (instGet s 2)
  if VALUE_BOTH_NUMBERS left right then
    .next { stackSet s (instGet s 3) (ext.fadd left right) with pc := s.pc + 4 }
  else
    .ret .panic (panicExpectedNumber s)

/-- `CASE(Sub)` (vm.c lines 678-689). -/
def caseSub (ext : Extern) (s : VMState) : StepResult :=
  let left := stackGet s (instGet s 1)
  let right := stackGet s (instGet s 2)
  if VALUE_BOTH_NUMBERS left right then
    .next { stackSet s (instGet s 3) (ext.fsub left right) with pc := s.pc + 4 }
  else
    .ret .panic (panicExpectedNumber s)

/-- `CASE(Mul)` (vm.c lines 1275-1286). -/
def caseMul (ext : Extern) (s : VMState) : StepResult :=
  let left := stackGet s (instGet s 1)
  let right := stackGet s (instGet s 2)
  if VALUE_BOTH_NUMBERS left right then
    .next { stackSet s (instGet s 3) (ext.fmul left right) with pc := s.pc + 4 }
  else
    .ret .panic (panicExpectedNumber s)

/-- `CASE(Div)` (vm.c lines 1287-1298). -/
def caseDiv (ext : Extern) (s : VMState) : StepResult :=
  let left := stackGet s (instGet s 1)
  let right := stackGet s (instGet s 2)
  if VALUE_BOTH_NUMBERS left right then
    .next { stackSet s (instGet s 3) (ext.fdiv left right) with pc := s.pc + 4 }
  else
    .ret .panic (panicExpectedNumber s)

/-- `CASE(Pow)` (vm.c lines 1299-1310). -/
def casePow (ext : Extern) (s : VMState) : StepResult :=
  let left := stackGet s (instGet s 1)
  let right := stackGet s (instGet s 2)
  if VALUE_BOTH_NUMBERS left right then
    .next { stackSet s (instGet s 3) (ext.fpow left right) with pc := s.pc + 4 }
  else
    .ret .panic (panicExpectedNumber s)

/-- `CASE(Mod)` (vm.c lines 1311-1322). -/
def caseMod (ext : Extern) (s : VMState) : StepResult :=
  let left := stackGet s (instGet s 1)
  let right := stackGet s (instGet s 2)
  if VALUE_BOTH_NUMBERS left right then
    .next { stackSet s (instGet s 3) (ext.fmodOp left right) with pc := s.pc + 4 }
  else
    .ret .panic (panicExpectedNumber s)

/-- `CASE(Less)` (vm.c lines 1227-1238). -/
def caseLess (ext : Extern) (s : VMState) : StepResult :=
  let left := stackGet s (instGet s 1)
  let right := stackGet s (instGet s 2)
  if VALUE_BOTH_NUMBERS left right then
    .next { stackSet s (instGet s 3) (VALUE_BOOLEAN (ext.flt left right)) with pc := s.pc + 4 }
  else
    .ret .panic (panicExpectedNumber s)

/-- `CASE(Greater)` (vm.c lines 1239-1250). -/
def caseGreater (ext : Extern) (s : VMState) : StepResult :=
  let left := stackGet s (instGet s 1)
  let right := stackGet s (instGet s 2)
  if VALUE_BOTH_NUMBERS left right then
    .next { stackSet s (instGet s 3) (VALUE_BOOLEAN (ext.fgt left right)) with pc := s.pc + 4 }
  else
    .ret .panic (panicExpectedNumber s)

/-- `CASE(LessEqual)` (vm.c lines 1251-1262). -/
def caseLessEqual (ext : Extern) (s : VMState) : StepResult :=
  let left := stackGet s (instGet s 1)
  let right := stackGet s (instGet s 2)
  if VALUE_BOTH_NUMBERS left right then
    .next { stackSet s (instGet s 3) (VALUE_BOOLEAN (ext.fle left right)) with pc := s.pc + 4 }
  else
    .ret .panic (panicExpectedNumber s)

/-- `CASE(GreaterEqual)` (vm.c lines 1263-1274). -/
def caseGreaterEqual (ext : Extern) (s : VMState) : StepResult :=
  let left := stackGet s (instGet s 1)
  let right := stackGet s (instGet s 2)
  if VALUE_BOTH_NUMBERS left right then
    .next { stackSet s (instGet s 3) (VALUE_BOOLEAN (ext.fge left right)) with pc := s.pc + 4 }
  else
    .ret .panic (panicExpectedNumber s)

/-- `CASE(Neg)` (vm.c lines 1349-1359): negates `stack[pc[1]]` in place. -/
def caseNeg (ext : Extern) (s : VMState) : StepResult :=
  let v := stackGet s (instGet s 1)
  if VALUE_IS_NUMBER v then
    .next { stackSet s (instGet s 1) (ext.fneg v) with pc := s.pc + 2 }
  else
    .ret .panic (panicExpectedNumber s)

/-- `CASE(AddInt)` (vm.c lines 1820-1826).  The C sum is computed on
`int32_t`; signed overflow is undefined behaviour there, so the model uses
the mathematical sum (identical whenever the sum stays in range). -/
def caseAddInt (s : VMState) : StepResult :=
  let left := stackGet s (instGet s 1)
  let right := stackGet s (instGet s 2)
  .next { stackSet s (instGet s 3)
            (VALUE_INTEGER (VALUE_AS_INTEGER left + VALUE_AS_INTEGER right)) with
          pc := s.pc + 4 }

/-- `CASE(SubInt)` (vm.c lines 1827-1833); same overflow caveat as `AddInt`. -/
def caseSubInt (s : VMState) : StepResult :=
  let left := stackGet s (instGet s 1)
  let right := stackGet s (instGet s 2)
  .next { stackSet s (instGet s 3)
            (VALUE_INTEGER (VALUE_AS_INTEGER left - VALUE_AS_INTEGER right)) with
          pc := s.pc + 4 }

/-- The frame build of `CASE(CallFuncIC)` (vm.c lines 998-1003): save the
caller base, move the window up by `startLocal`, write
`retInfo`/`retPc`/`retFp` at slots 1/2/3 of the new window, and jump to the
cached function pc (`READ_U48(6)`; a code pointer in C, an offset here). -/
def callFuncICFrame (h : Hdr) (s : VMState) : VMState :=
  let startLocal := instGet s 1
  let retFramePtr := s.sp
  let s1 := { s with sp := s.sp + startLocal }
  let s2 := stackSet s1 1 (VALUE_RETINFO (instGet s 3) 0 h.CALL_SYM_INST_LEN)
  let s3 := stackSet s2 2 (s.pc + h.CALL_SYM_INST_LEN)
  let s4 := stackSet s3 3 retFramePtr
  { s4 with pc := READ_U48 s 6 }

/-- `CASE(CallFuncIC)` (vm.c lines 991-1005). -/
def caseCallFuncIC (h : Hdr) (s : VMState) : StepResult :=
  let startLocal := instGet s 1
  let numLocals := instGet s 4
  if s.sp + startLocal + numLocals ≥ s.stackEnd then
    .ret .stackOverflow s
  else
    .next (callFuncICFrame h s)

/-- The frame build of the cache-hit path of `CASE(CallObjFuncIC)`
(vm.c lines 932-938): the two byte stores into `stack + 1` overwrite the
low 16 bits of slot 1 with `(pc[3], 0)`; the callee pc is `READ_U32(8)`. -/
def callObjFuncICFrame (s : VMState) : VMState :=
  let startLocal := instGet s 1
  let retFramePtr := s.sp
  let s1 := { s with sp := s.sp + startLocal }
  let s2 := stackSet s1 1 (stackGet s1 1 / 2 ^ 16 * 2 ^ 16 + instGet s 3)
  let s3 := stackSet s2 2 (s.pc + 16)
  let s4 := stackSet s3 3 retFramePtr
  { s4 with pc := READ_U32 s 8 }

/-- `CASE(CallObjFuncIC)` (vm.c lines 920-945).  The C declares `recv` as
`uint8_t`, truncating the receiver value to its low byte (`% 256` here);
the spec flags this as a probable source bug, and the model keeps it. -/
def caseCallObjFuncIC (h : Hdr) (s : VMState) : StepResult :=
  let startLocal := instGet s 1
  let numArgs := instGet s 2
  let recv := stackGet s (startLocal + numArgs + 4 - 1) % 256
  let typeId := getTypeId h s recv
  let cachedTypeId := READ_U16 s 14
  if typeId = cachedTypeId then
    let numLocals := instGet s 7
    if s.sp + startLocal + numLocals ≥ s.stackEnd then
      .ret .stackOverflow s
    else
      .next (callObjFuncICFrame s)
  else
    .next (instSetAbs s s.pc CodeCallObjSym)

/-- `CASE(Ret1)` (vm.c lines 1034-1064).  `stack[2]`/`stack[3]` hold the
saved pc and caller base (raw words in C; offsets here); the unreachable
`switch` arms call `zFatal`. -/
def caseRet1 (s : VMState) : StepResult :=
  let reqNumArgs := VALUE_RETINFO_NUMRETVALS (stackGet s 1)
  let retFlag := VALUE_RETINFO_RETFLAG (stackGet s 1)
  if reqNumArgs = 1 then
    let s1 := { s with pc := stackGet s 2, sp := stackGet s 3 }
    if retFlag = 0 then .next s1 else .ret .success s1
  else if reqNumArgs = 0 then
    let s0 := { s with heap := releaseValue s.heap (stackGet s 0) }
    let s1 := { s0 with pc := stackGet s0 2, sp := stackGet s0 3 }
    if retFlag = 0 then .next s1 else .ret .success s1
  else
    .fatal

/-- `CASE(Ret0)` (vm.c lines 1065-1094). -/
def caseRet0 (s : VMState) : StepResult :=
  let reqNumArgs := VALUE_RETINFO_NUMRETVALS (stackGet s 1)
  let retFlag := VALUE_RETINFO_RETFLAG (stackGet s 1)
  if reqNumArgs = 0 then
    let s1 := { s with pc := stackGet s 2, sp := stackGet s 3 }
    if retFlag = 0 then .next s1 else .ret .success s1
  else if reqNumArgs = 1 then
    let s0 := stackSet s 0 VALUE_NONE
    let s1 := { s0 with pc := stackGet s0 2, sp := stackGet s0 3 }
    if retFlag = 0 then .next s1 else .ret .success s1
  else
    .fatal

/-- `CASE(PushTry)` (vm.c lines 1495-1512).  `zGrowTryStackTotalCapacity`
is external: its result code and the new capacity are `Extern` fields; on
growth the buffer is padded to the new capacity. -/
def casePushTry (ext : Extern) (s : VMState) : StepResult :=
  let errDst := instGet s 1
  let catchPcOffset := READ_U16 s 2
  if s.tryLen = s.tryBuf.length ∧ ext.zGrowTryCode ≠ ResultCode.success then
    .ret ext.zGrowTryCode s
  else
    let s1 :=
      if s.tryLen = s.tryBuf.length then
        { s with tryBuf := s.tryBuf ++ List.replicate (ext.zGrowTryNewCap - s.tryBuf.length) default }
      else s
    let s2 := { s1 with
      tryBuf := s1.tryBuf.set s1.tryLen ⟨s.sp, s.pc + catchPcOffset, errDst⟩,
      tryLen := s1.tryLen + 1 }
    .next { s2 with pc := s.pc + 4 }

/-- `CASE(PopTry)` (vm.c lines 1513-1517): `vm->tryStack.len += 1` followed
by `pc += READ_U16(1)` — the counter is incremented, not decremented. -/
def casePopTry (s : VMState) : StepResult :=
  .next { s with tryLen := s.tryLen + 1, pc := s.pc + READ_U16 s 1 }

/-- `CASE(Throw)` (vm.c lines 1518-1532): `zThrow` is external (it walks
the try stack); its result carries a code, the mutated VM, and the new
pc/sp used only on success. -/
def caseThrow (ext : Extern) (s : VMState) : StepResult :=
  let err := stackGet s (instGet s 1)
  if VALUE_IS_ERROR err then
    let r := ext.zThrow s err
    if r.1 = ResultCode.success then
      .next { r.2.1 with pc := r.2.2.1, sp := r.2.2.2 }
    else
      .ret r.1 { r.2.1 with pc := s.pc, sp := s.sp }
  else
    .ret .panic (panicStaticMsg s notAnErrorMsg)

/-- `CASE(Coresume)` (vm.c lines 1557-1575): switch via the external
`zPushFiber` only when the operand is a live fiber other than the current
one; otherwise release the handle and fall through. -/
def caseCoresume (h : Hdr) (ext : Extern) (s : VMState) : StepResult :=
  let fiber := stackGet s (instGet s 1)
  if VALUE_IS_POINTER fiber then
    let addr := VALUE_AS_HEAPOBJECT fiber
    let obj := heapGet s.heap addr
    if obj.typeId = h.TYPE_FIBER ∧ addr ≠ s.curFiber ∧ obj.pcOffset ≠ NULL_U32 then
      .next (ext.zPushFiber s (s.pc + 3) (instGet s 2) addr)
    else
      .next { s with heap := releaseObject s.heap addr, pc := s.pc + 3 }
  else
    .next { s with pc := s.pc + 3 }

/-- The `start` local of `CASE(ForRangeInit)`. -/
def forRangeStart (ext : Extern) (s : VMState) : ℕ := toF64 ext (stackGet s (instGet s 1))

/-- The `end` local of `CASE(ForRangeInit)`. -/
def forRangeEnd (ext : Extern) (s : VMState) : ℕ := toF64 ext (stackGet s (instGet s 2))

/-- The `step` local of `CASE(ForRangeInit)` after the absolute-value
branch; read after `stack[pc[2]]` was overwritten with `end`.  The C
`step < 0` compares against the double `0`, whose bit pattern is `0`. -/
def forRangeStep (ext : Extern) (s : VMState) : ℕ :=
  let step0 := toF64 ext (stackGet (stackSet s (instGet s 2) (forRangeEnd ext s)) (instGet s 3))
  if ext.flt step0 0 then ext.fneg step0 else step0

/-- `CASE(ForRangeInit)` (vm.c lines 1841-1865). -/
def caseForRangeInit (ext : Extern) (s : VMState) : StepResult :=
  let start := forRangeStart ext s
  let endv := forRangeEnd ext s
  let s1 := stackSet s (instGet s 2) endv
  let step := forRangeStep ext s
  let s2 := stackSet s1 (instGet s 3) step
  if ext.feq start endv then
    .next { s2 with pc := s.pc + (READ_U16 s 6 + 7) }
  else
    let s3 := stackSet s2 (instGet s 4) start
    let s4 := stackSet s3 (instGet s 5) start
    let offset := READ_U16 s 6
    let s5 := instSetAbs s4 (s.pc + offset)
      (if ext.flt start endv then CodeForRange else CodeForRangeReverse)
    .next { s5 with pc := s.pc + 8 }

/-! ## Access helper lemmas -/

theorem stackGet_stackSet_self (s : VMState) (i v : ℕ) (h : s.sp + i < s.regs.length) :
    stackGet (stackSet s i v) i = v := by
  simp [stackGet, stackSet, List.getD_eq_getElem?_getD, List.getElem?_set_self, h]

theorem stackGet_stackSet_ne (s : VMState) (i j v : ℕ) (h : j ≠ i) :
    stackGet (stackSet s j v) i = stackGet s i := by
  have h2 : s.sp + j ≠ s.sp + i := by omega
  simp [stackGet, stackSet, List.getD_eq_getElem?_getD, List.getElem?_set_ne h2]

theorem heapFind_heapSet_self (hp : List (ℕ × HeapObj)) (a : ℕ) (o o2 : HeapObj)
    (h : heapFind hp a = some o) : heapFind (heapSet hp a o2) a = some o2 := by
  induction hp with
  | nil => simp [heapFind] at h
  | cons x t ih =>
    obtain ⟨xa, xo⟩ := x
    by_cases hx : xa = a
    · simp [heapFind, heapSet, hx]
    · simp only [heapFind, heapSet, hx, if_false, if_neg hx] at h ⊢
      exact ih h

/-! ## Claim theorems -/

/-- C8: for every integer `n` in `[-2^31, 2^31 - 1]`, decoding the encoded
tagged-integer value gives back `n`:
`VALUE_AS_INTEGER (VALUE_INTEGER n) = n`. -/
theorem valueInteger_roundtrip (n : ℤ) (h1 : -2 ^ 31 ≤ n) (h2 : n < 2 ^ 31) :
    VALUE_AS_INTEGER (VALUE_INTEGER n) = n := by
  rw [VALUE_AS_INTEGER, VALUE_INTEGER_mod_two_pow_32, toU64]
  have hk : (((n % (2 ^ 64 : ℤ)).toNat : ℤ)) = n % 2 ^ 64 :=
    Int.toNat_of_nonneg (Int.emod_nonneg n (by norm_num))
  split <;> omega

/-- Witness for C8 at `n = -123456`. -/
theorem valueInteger_roundtrip_witness :
    (-2 ^ 31 ≤ (-123456 : ℤ)) ∧ ((-123456 : ℤ) < 2 ^ 31) ∧
      VALUE_AS_INTEGER (VALUE_INTEGER (-123456)) = -123456 :=
  ⟨by norm_num, by norm_num, valueInteger_roundtrip (-123456) (by norm_num) (by norm_num)⟩

/-- C10: when the signed 32-bit sum (`AddInt`) or difference (`SubInt`) of
the two operands is negative, the destination word of the integer fast
path has all of its high 32 bits set (the C promotion sign-extends before
OR-ing `INTEGER_MASK`), so it satisfies `VALUE_IS_POINTER` and is no
longer a primitive tagged value. -/
theorem intFastPath_neg_result_is_pointer (s : VMState)
    (hdst : s.sp + instGet s 3 < s.regs.length) :
    (-2 ^ 31 ≤ VALUE_AS_INTEGER (stackGet s (instGet s 1)) + VALUE_AS_INTEGER (stackGet s (instGet s 2)) →
     VALUE_AS_INTEGER (stackGet s (instGet s 1)) + VALUE_AS_INTEGER (stackGet s (instGet s 2)) < 0 →
     ∃ s2, caseAddInt s = .next s2 ∧
       stackGet s2 (instGet s 3) >>> 32 = 2 ^ 32 - 1 ∧
       VALUE_IS_POINTER (stackGet s2 (instGet s 3)) = true) ∧
    (-2 ^ 31 ≤ VALUE_AS_INTEGER (stackGet s (instGet s 1)) - VALUE_AS_INTEGER (stackGet s (instGet s 2)) →
     VALUE_AS_INTEGER (stackGet s (instGet s 1)) - VALUE_AS_INTEGER (stackGet s (instGet s 2)) < 0 →
     ∃ s2, caseSubInt s = .next s2 ∧
       stackGet s2 (instGet s 3) >>> 32 = 2 ^ 32 - 1 ∧
       VALUE_IS_POINTER (stackGet s2 (instGet s 3)) = true) := by
  constructor
  · intro hge hlt
    refine ⟨_, rfl, ?_, ?_⟩
    · show stackGet { stackSet s (instGet s 3) _ with pc := s.pc + 4 } (instGet s 3) >>> 32 = _
      rw [show stackGet { stackSet s (instGet s 3)
            (VALUE_INTEGER (VALUE_AS_INTEGER (stackGet s (instGet s 1)) +
              VALUE_AS_INTEGER (stackGet s (instGet s 2)))) with pc := s.pc + 4 } (instGet s 3) =
          VALUE_INTEGER (VALUE_AS_INTEGER (stackGet s (instGet s 1)) +
            VALUE_AS_INTEGER (stackGet s (instGet s 2))) from
        stackGet_stackSet_self s (instGet s 3) _ hdst]
      exact VALUE_INTEGER_neg_high _ hge hlt
    · rw [show stackGet { stackSet s (instGet s 3)
            (VALUE_INTEGER (VALUE_AS_INTEGER (stackGet s (instGet s 1)) +
              VALUE_AS_INTEGER (stackGet s (instGet s 2)))) with pc := s.pc + 4 } (instGet s 3) =
          VALUE_INTEGER (VALUE_AS_INTEGER (stackGet s (instGet s 1)) +
            VALUE_AS_INTEGER (stackGet s (instGet s 2))) from
        stackGet_stackSet_self s (instGet s 3) _ hdst]
      exact pointer_of_high_ones _ (VALUE_INTEGER_neg_high _ hge hlt)
  · intro hge hlt
    refine ⟨_, rfl, ?_, ?_⟩
    · rw [show stackGet { stackSet s (instGet s 3)
            (VALUE_INTEGER (VALUE_AS_INTEGER (stackGet s (instGet s 1)) -
              VALUE_AS_INTEGER (stackGet s (instGet s 2)))) with pc := s.pc + 4 } (instGet s 3) =
          VALUE_INTEGER (VALUE_AS_INTEGER (stackGet s (instGet s 1)) -
            VALUE_AS_INTEGER (stackGet s (instGet s 2))) from
        stackGet_stackSet_self s (instGet s 3) _ hdst]
      exact VALUE_INTEGER_neg_high _ hge hlt
    · rw [show stackGet { stackSet s (instGet s 3)
            (VALUE_INTEGER (VALUE_AS_INTEGER (stackGet s (instGet s 1)) -
              VALUE_AS_INTEGER (stackGet s (instGet s 2)))) with pc := s.pc + 4 } (instGet s 3) =
          VALUE_INTEGER (VALUE_AS_INTEGER (stackGet s (instGet s 1)) -
            VALUE_AS_INTEGER (stackGet s (instGet s 2))) from
        stackGet_stackSet_self s (instGet s 3) _ hdst]
      exact pointer_of_high_ones _ (VALUE_INTEGER_neg_high _ hge hlt)

/-- A concrete state for the C10 witness: `AddInt 0,1 -> 2` with operands
`1` and `-3` as tagged integers. -/
def sIntOps : VMState :=
  { inst := [86, 0, 1, 2], regs := [VALUE_INTEGER 1, VALUE_INTEGER (-3), 0, 0], sp := 0,
    pc := 0, stackEnd := 4, tryBuf := [], tryLen := 0, panicType := PanicT.nonePanic,
    panicPayload := "", heap := [], curFiber := 0 }

/-- Witness for C10: `1 + (-3) = -2` stored by `AddInt`. -/
theorem intFastPath_neg_result_is_pointer_witness :
    sIntOps.sp + instGet sIntOps 3 < sIntOps.regs.length ∧
    (-2 ^ 31 ≤ VALUE_AS_INTEGER (stackGet sIntOps (instGet sIntOps 1)) +
        VALUE_AS_INTEGER (stackGet sIntOps (instGet sIntOps 2))) ∧
    (VALUE_AS_INTEGER (stackGet sIntOps (instGet sIntOps 1)) +
        VALUE_AS_INTEGER (stackGet sIntOps (instGet sIntOps 2)) < 0) ∧
    (∃ s2, caseAddInt sIntOps = .next s2 ∧
      stackGet s2 (instGet sIntOps 3) >>> 32 = 2 ^ 32 - 1 ∧
      VALUE_IS_POINTER (stackGet s2 (instGet sIntOps 3)) = true) :=
  ⟨by decide, by decide, by decide,
    (intFastPath_neg_result_is_pointer sIntOps (by decide)).1 (by decide) (by decide)⟩

/-- C3: `isTypeSymCompat(arg, cstr)` is true exactly when `arg == cstr`,
or `cstr` is `ANY` or `DYNAMIC`, or `cstr` is `STRING` while `arg` is
`STATICSTRING`; the `vm.h` constants are abstract, so this holds for every
instantiation. -/
theorem isTypeSymCompat_iff (h : Hdr) (a k : ℕ) :
    isTypeSymCompat h a k = true ↔
      a = k ∨ k = h.SEMA_TYPE_ANY ∨ k = h.SEMA_TYPE_DYNAMIC ∨
        (k = h.SEMA_TYPE_STRING ∧ a = h.SEMA_TYPE_STATICSTRING) := by
  unfold isTypeSymCompat
  split_ifs with h1 h2 h3
  all_goals simp_all
  all_goals tauto

/-- Contract shared by the two-operand arithmetic and comparison cases: a
non-number operand sets the static panic "Expected number operand." and
returns `PANIC` with the registers (hence the destination) untouched; two
number operands store the result of the operation in `stack[pc[3]]` and
advance `pc` past the 4-byte instruction. -/
def ArithBinopContract (exec : Extern → VMState → StepResult) (res : Extern → ℕ → ℕ → ℕ) : Prop :=
  ∀ (ext : Extern) (s : VMState),
    (VALUE_BOTH_NUMBERS (stackGet s (instGet s 1)) (stackGet s (instGet s 2)) = false →
      exec ext s = .ret .panic (panicExpectedNumber s)) ∧
    (VALUE_BOTH_NUMBERS (stackGet s (instGet s 1)) (stackGet s (instGet s 2)) = true →
      exec ext s = .next { stackSet s (instGet s 3)
          (res ext (stackGet s (instGet s 1)) (stackGet s (instGet s 2))) with pc := s.pc + 4 })

/-- C2: every arithmetic/comparison opcode (`Add`, `Sub`, `Mul`, `Div`,
`Pow`, `Mod`, `Less`, `Greater`, `LessEqual`, `GreaterEqual`, and the
one-operand `Neg`) panics with the static message "Expected number
operand." and returns `PANIC` leaving the destination unchanged when an
operand is not a number, and otherwise stores the arithmetic result and
advances `pc` past the instruction. -/
theorem arithCases_number_check :
    ArithBinopContract caseAdd (fun e => e.fadd) ∧
    ArithBinopContract caseSub (fun e => e.fsub) ∧
    ArithBinopContract caseMul (fun e => e.fmul) ∧
    ArithBinopContract caseDiv (fun e => e.fdiv) ∧
    ArithBinopContract casePow (fun e => e.fpow) ∧
    ArithBinopContract caseMod (fun e => e.fmodOp) ∧
    ArithBinopContract caseLess (fun e l r => VALUE_BOOLEAN (e.flt l r)) ∧
    ArithBinopContract caseGreater (fun e l r => VALUE_BOOLEAN (e.fgt l r)) ∧
    ArithBinopContract caseLessEqual (fun e l r => VALUE_BOOLEAN (e.fle l r)) ∧
    ArithBinopContract caseGreaterEqual (fun e l r => VALUE_BOOLEAN (e.fge l r)) ∧
    (∀ (ext : Extern) (s : VMState),
      (VALUE_IS_NUMBER (stackGet s (instGet s 1)) = false →
        caseNeg ext s = .ret .panic (panicExpectedNumber s)) ∧
      (VALUE_IS_NUMBER (stackGet s (instGet s 1)) = true →
        caseNeg ext s = .next { stackSet s (instGet s 1)
            (ext.fneg (stackGet s (instGet s 1))) with pc := s.pc + 2 })) ∧
    (∀ s : VMState, (panicExpectedNumber s).regs = s.regs ∧
      (panicExpectedNumber s).panicPayload = "Expected number operand." ∧
      (panicExpectedNumber s).panicType = PanicT.staticMsg) := by
  refine ⟨?_, ?_, ?_, ?_, ?_, ?_, ?_, ?_, ?_, ?_, ?_, ?_⟩
  case _ => intro ext s; constructor <;> intro hn <;> simp [caseAdd, hn]
  case _ => intro ext s; constructor <;> intro hn <;> simp [caseSub, hn]
  case _ => intro ext s; constructor <;> intro hn <;> simp [caseMul, hn]
  case _ => intro ext s; constructor <;> intro hn <;> simp [caseDiv, hn]
  case _ => intro ext s; constructor <;> intro hn <;> simp [casePow, hn]
  case _ => intro ext s; constructor <;> intro hn <;> simp [caseMod, hn]
  case _ => intro ext s; constructor <;> intro hn <;> simp [caseLess, hn]
  case _ => intro ext s; constructor <;> intro hn <;> simp [caseGreater, hn]
  case _ => intro ext s; constructor <;> intro hn <;> simp [caseLessEqual, hn]
  case _ => intro ext s; constructor <;> intro hn <;> simp [caseGreaterEqual, hn]
  case _ => intro ext s; constructor <;> intro hn <;> simp [caseNeg, hn]
  case _ => intro s; exact ⟨rfl, rfl, rfl⟩

/-- A concrete instantiation of the external collaborators, for the
witnesses. -/
def ext0 : Extern :=
  { fadd := fun a b => a + b, fsub := fun a b => a - b, fmul := fun a b => a * b,
    fdiv := fun a b => a / b, fpow := fun a b => a ^ b, fmodOp := fun a b => a % b,
    fneg := fun a => a, flt := fun a b => a < b, fgt := fun a b => b < a,
    fle := fun a b => a ≤ b, fge := fun a b => b ≤ a, feq := fun a b => a == b,
    zOtherToF64 := fun v => v, zGrowTryCode := ResultCode.success, zGrowTryNewCap := 4,
    zThrow := fun s _ => (ResultCode.success, s, 0, 0),
    zPushFiber := fun s _ _ _ => s }

/-- A concrete instantiation of the `vm.h` constants, for the witnesses. -/
def hdr0 : Hdr :=
  { TYPE_NUMBER := 0, TYPE_FIBER := 1, CALL_SYM_INST_LEN := 11,
    SEMA_TYPE_ANY := 100, SEMA_TYPE_DYNAMIC := 101, SEMA_TYPE_STRING := 102,
    SEMA_TYPE_STATICSTRING := 103 }

/-- A concrete state for the C2 witness: `Add 0,1 -> 2` with the small
number operands `5` and `7` (small words are valid doubles). -/
def sArith : VMState :=
  { inst := [3, 0, 1, 2], regs := [5, 7, 0], sp := 0, pc := 0, stackEnd := 3,
    tryBuf := [], tryLen := 0, panicType := PanicT.nonePanic, panicPayload := "",
    heap := [], curFiber := 0 }

/-- Witness for C2: the number path of `Add` on `sArith`. -/
theorem arithCases_number_check_witness :
    VALUE_BOTH_NUMBERS (stackGet sArith (instGet sArith 1)) (stackGet sArith (instGet sArith 2)) = true ∧
    caseAdd ext0 sArith = .next { stackSet sArith (instGet sArith 3)
      (ext0.fadd (stackGet sArith (instGet sArith 1)) (stackGet sArith (instGet sArith 2))) with
      pc := sArith.pc + 4 } :=
  ⟨by decide, (arithCases_number_check.1 ext0 sArith).2 (by decide)⟩

/-- A concrete state sitting exactly at the stack bound:
`sp + startLocal + numLocals = stackEnd` (`startLocal = 1`,
`numLocals = 1`, `sp = 0`, `stackEnd = 2`). -/
def sCallBoundary : VMState :=
  { inst := [30, 1, 0, 0, 1, 0, 0, 0, 0, 0, 0], regs := [0, 0, 0, 0], sp := 0, pc := 0,
    stackEnd := 2, tryBuf := [], tryLen := 0, panicType := PanicT.nonePanic,
    panicPayload := "", heap := [], curFiber := 0 }

/-- C4 counterexample: the claim predicts that a call with
`sp + startLocal + numLocals` exactly equal to `stackEnd` proceeds, but
`CallFuncIC` checks `>=` and returns `STACK_OVERFLOW` there. -/
theorem callFuncIC_boundary_faults :
    sCallBoundary.sp + instGet sCallBoundary 1 + instGet sCallBoundary 4 = sCallBoundary.stackEnd ∧
    caseCallFuncIC hdr0 sCallBoundary = .ret .stackOverflow sCallBoundary := by
  decide

/-- C4 (amended): a call that begins a bytecode frame (`CallFuncIC`, and
the cache-hit path of `CallObjFuncIC`) proceeds exactly when
`sp + startLocal + numLocals < stackEnd`; when `>=` (equality included) it
returns `STACK_OVERFLOW` without modifying the frame. -/
theorem callIC_stack_check (h : Hdr) (s : VMState) :
    (s.stackEnd ≤ s.sp + instGet s 1 + instGet s 4 →
      caseCallFuncIC h s = .ret .stackOverflow s) ∧
    (s.sp + instGet s 1 + instGet s 4 < s.stackEnd →
      caseCallFuncIC h s = .next (callFuncICFrame h s)) ∧
    (getTypeId h s (stackGet s (instGet s 1 + instGet s 2 + 4 - 1) % 256) = READ_U16 s 14 →
      (s.stackEnd ≤ s.sp + instGet s 1 + instGet s 7 →
        caseCallObjFuncIC h s = .ret .stackOverflow s) ∧
      (s.sp + instGet s 1 + instGet s 7 < s.stackEnd →
        caseCallObjFuncIC h s = .next (callObjFuncICFrame s))) := by
  refine ⟨?_, ?_, ?_⟩
  · intro hge
    simp [caseCallFuncIC, hge]
  · intro hlt
    rw [caseCallFuncIC, if_neg (by omega)]
  · intro hhit
    constructor
    · intro hge
      unfold caseCallObjFuncIC
      dsimp only
      split_ifs
      rfl
    · intro hlt
      unfold caseCallObjFuncIC
      dsimp only
      split_ifs with h1
      · omega
      · rfl

/-- A concrete state strictly below the stack bound for the C4 witness. -/
def sCallOk : VMState :=
  { sCallBoundary with stackEnd := 9 }

/-- Witness for C4 (amended) on the proceed side: strict headroom. -/
theorem callIC_stack_check_witness :
    sCallOk.sp + instGet sCallOk 1 + instGet sCallOk 4 < sCallOk.stackEnd ∧
    caseCallFuncIC hdr0 sCallOk = .next (callFuncICFrame hdr0 sCallOk) :=
  ⟨by decide, (callIC_stack_check hdr0 sCallOk).2.1 (by decide)⟩

/-- C5: with `retInfo.numRetVals` in `{0, 1}`: `Ret1` toward a caller that
requested 0 values releases slot 0 before popping; `Ret0` toward a caller
that requested 1 value writes `NONE` into slot 0; both opcodes restore
`pc` from slot 2 and the stack base from slot 3, continue when
`retFlag = 0`, and return `SUCCESS` when `retFlag = 1`. -/
theorem ret_frame_pop (s : VMState) :
    (VALUE_RETINFO_NUMRETVALS (stackGet s 1) = 0 →
      (VALUE_RETINFO_RETFLAG (stackGet s 1) = 0 →
        caseRet1 s = .next { s with
          heap := releaseValue s.heap (stackGet s 0),
          pc := stackGet s 2, sp := stackGet s 3 }) ∧
      (VALUE_RETINFO_RETFLAG (stackGet s 1) = 1 →
        caseRet1 s = .ret .success { s with
          heap := releaseValue s.heap (stackGet s 0),
          pc := stackGet s 2, sp := stackGet s 3 }) ∧
      (VALUE_RETINFO_RETFLAG (stackGet s 1) = 0 →
        caseRet0 s = .next { s with pc := stackGet s 2, sp := stackGet s 3 }) ∧
      (VALUE_RETINFO_RETFLAG (stackGet s 1) = 1 →
        caseRet0 s = .ret .success { s with pc := stackGet s 2, sp := stackGet s 3 })) ∧
    (VALUE_RETINFO_NUMRETVALS (stackGet s 1) = 1 →
      (VALUE_RETINFO_RETFLAG (stackGet s 1) = 0 →
        caseRet1 s = .next { s with pc := stackGet s 2, sp := stackGet s 3 }) ∧
      (VALUE_RETINFO_RETFLAG (stackGet s 1) = 1 →
        caseRet1 s = .ret .success { s with pc := stackGet s 2, sp := stackGet s 3 }) ∧
      (VALUE_RETINFO_RETFLAG (stackGet s 1) = 0 →
        caseRet0 s = .next { stackSet s 0 VALUE_NONE with
          pc := stackGet s 2, sp := stackGet s 3 }) ∧
      (VALUE_RETINFO_RETFLAG (stackGet s 1) = 1 →
        caseRet0 s = .ret .success { stackSet s 0 VALUE_NONE with
          pc := stackGet s 2, sp := stackGet s 3 })) := by
  have hne2 : stackGet (stackSet s 0 VALUE_NONE) 2 = stackGet s 2 :=
    stackGet_stackSet_ne s 2 0 VALUE_NONE (by omega)
  have hne3 : stackGet (stackSet s 0 VALUE_NONE) 3 = stackGet s 3 :=
    stackGet_stackSet_ne s 3 0 VALUE_NONE (by omega)
  constructor
  · intro hreq
    refine ⟨fun hflag => ?_, fun hflag => ?_, fun hflag => ?_, fun hflag => ?_⟩ <;>
      (simp [caseRet1, caseRet0, hreq, hflag, hne2, hne3]; try exact ⟨rfl, rfl⟩)
  · intro hreq
    refine ⟨fun hflag => ?_, fun hflag => ?_, fun hflag => ?_, fun hflag => ?_⟩ <;>
      (simp [caseRet1, caseRet0, hreq, hflag, hne2, hne3]; try exact ⟨rfl, rfl⟩)

/-- A concrete state for the C5 witness: `retInfo` requests 0 values with
`retFlag = 1` (top-level return); slot 0 holds a non-pointer value. -/
def sRet : VMState :=
  { inst := [32], regs := [5, VALUE_RETINFO 0 1 11, 42, 7], sp := 0, pc := 0, stackEnd := 4,
    tryBuf := [], tryLen := 0, panicType := PanicT.nonePanic, panicPayload := "",
    heap := [], curFiber := 0 }

/-- Witness for C5: `Ret1` with `numRetVals = 0`, `retFlag = 1`. -/
theorem ret_frame_pop_witness :
    VALUE_RETINFO_NUMRETVALS (stackGet sRet 1) = 0 ∧
    VALUE_RETINFO_RETFLAG (stackGet sRet 1) = 1 ∧
    caseRet1 sRet = .ret .success { sRet with
      heap := releaseValue sRet.heap (stackGet sRet 0),
      pc := stackGet sRet 2, sp := stackGet sRet 3 } :=
  ⟨by decide, by decide, ((ret_frame_pop sRet).1 (by decide)).2.1 (by decide)⟩

/-- C6: `Throw` on an operand that is not an `ERROR` value sets the static
panic "Not an error.", returns `PANIC`, and leaves the try-frame stack
(both its buffer and its length) untouched. -/
theorem throw_nonerror_panics (ext : Extern) (s : VMState)
    (hne : VALUE_IS_ERROR (stackGet s (instGet s 1)) = false) :
    caseThrow ext s = .ret .panic (panicStaticMsg s notAnErrorMsg) ∧
      (panicStaticMsg s notAnErrorMsg).tryLen = s.tryLen ∧
      (panicStaticMsg s notAnErrorMsg).tryBuf = s.tryBuf ∧
      (panicStaticMsg s notAnErrorMsg).panicPayload = "Not an error." := by
  refine ⟨?_, rfl, rfl, rfl⟩
  simp [caseThrow, hne]

/-- A concrete state for the C6 witness: the thrown register holds `0`
(a number, not an error). -/
def sThrow : VMState :=
  { inst := [62, 0], regs := [0], sp := 0, pc := 0, stackEnd := 1,
    tryBuf := [default, default], tryLen := 1, panicType := PanicT.nonePanic,
    panicPayload := "", heap := [], curFiber := 0 }

/-- Witness for C6 on `sThrow`. -/
theorem throw_nonerror_panics_witness :
    VALUE_IS_ERROR (stackGet sThrow (instGet sThrow 1)) = false ∧
    (caseThrow ext0 sThrow = .ret .panic (panicStaticMsg sThrow notAnErrorMsg) ∧
      (panicStaticMsg sThrow notAnErrorMsg).tryLen = sThrow.tryLen ∧
      (panicStaticMsg sThrow notAnErrorMsg).tryBuf = sThrow.tryBuf ∧
      (panicStaticMsg sThrow notAnErrorMsg).panicPayload = "Not an error.") :=
  ⟨by decide, throw_nonerror_panics ext0 sThrow (by decide)⟩

/-- C7: `Coresume` on a fiber whose `pcOffset` is the finished sentinel
`U32_MAX` performs no fiber switch: the handle is released (the object
reference count drops by one; `rc >= 2` keeps the object alive so the
external free is not reached), `pc` advances by 3, and the current fiber,
the stack base, and the registers are otherwise unchanged. -/
theorem coresume_finished_releases (h : Hdr) (ext : Extern) (s : VMState) (obj : HeapObj)
    (hptr : VALUE_IS_POINTER (stackGet s (instGet s 1)) = true)
    (hobj : heapFind s.heap (VALUE_AS_HEAPOBJECT (stackGet s (instGet s 1))) = some obj)
    (hfin : obj.pcOffset = NULL_U32)
    (hrc : 2 ≤ obj.rc) :
    caseCoresume h ext s = .next { s with
      heap := heapSet s.heap (VALUE_AS_HEAPOBJECT (stackGet s (instGet s 1)))
        { obj with rc := obj.rc - 1 },
      pc := s.pc + 3 } ∧
    heapFind (heapSet s.heap (VALUE_AS_HEAPOBJECT (stackGet s (instGet s 1)))
        { obj with rc := obj.rc - 1 })
      (VALUE_AS_HEAPOBJECT (stackGet s (instGet s 1))) = some { obj with rc := obj.rc - 1 } := by
  constructor
  · unfold caseCoresume
    dsimp only
    rw [if_pos hptr]
    rw [if_neg (by simp [heapGet, hobj, hfin])]
    unfold releaseObject
    rw [hobj]
    dsimp only
    rw [if_neg (by omega)]
  · exact heapFind_heapSet_self s.heap _ obj _ hobj

/-- A concrete state for the C7 witness: register 0 holds a pointer to a
finished fiber object at address 8 with `rc = 2`. -/
def sCoresume : VMState :=
  { inst := [65, 0, 1], regs := [POINTER_MASK ||| 8], sp := 0, pc := 0, stackEnd := 1,
    tryBuf := [], tryLen := 0, panicType := PanicT.nonePanic, panicPayload := "",
    heap := [(8, { typeId := 1, rc := 2, pcOffset := NULL_U32 })], curFiber := 0 }

/-- Witness for C7 on `sCoresume` (with `hdr0.TYPE_FIBER = 1`). -/
theorem coresume_finished_releases_witness :
    VALUE_IS_POINTER (stackGet sCoresume (instGet sCoresume 1)) = true ∧
    heapFind sCoresume.heap (VALUE_AS_HEAPOBJECT (stackGet sCoresume (instGet sCoresume 1))) =
      some { typeId := 1, rc := 2, pcOffset := NULL_U32 } ∧
    caseCoresume hdr0 ext0 sCoresume = .next { sCoresume with
      heap := heapSet sCoresume.heap
        (VALUE_AS_HEAPOBJECT (stackGet sCoresume (instGet sCoresume 1)))
        { typeId := 1, rc := 2 - 1, pcOffset := NULL_U32 },
      pc := sCoresume.pc + 3 } :=
  ⟨by decide, by decide,
    (coresume_finished_releases hdr0 ext0 sCoresume { typeId := 1, rc := 2, pcOffset := NULL_U32 }
      (by decide) (by decide) (by decide) (by decide)).1⟩

/-! ## More access helper lemmas (registers vs non-register fields) -/

theorem stackGet_pcUpd (s : VMState) (p i : ℕ) : stackGet { s with pc := p } i = stackGet s i := rfl

theorem stackGet_instSetAbs (s : VMState) (o b i : ℕ) :
    stackGet (instSetAbs s o b) i = stackGet s i := rfl

theorem instGetAbs_pcUpd (s : VMState) (p o : ℕ) :
    instGetAbs { s with pc := p } o = instGetAbs s o := rfl

theorem instGetAbs_stackSet (s : VMState) (j v o : ℕ) :
    instGetAbs (stackSet s j v) o = instGetAbs s o := rfl

theorem instGetAbs_instSetAbs_self (s : VMState) (o b : ℕ) (h : o < s.inst.length) :
    instGetAbs (instSetAbs s o b) o = b := by
  simp [instGetAbs, instSetAbs, List.getD_eq_getElem?_getD, List.getElem?_set_self, h]

theorem sp_stackSet (s : VMState) (j v : ℕ) : (stackSet s j v).sp = s.sp := rfl

theorem regsLen_stackSet (s : VMState) (j v : ℕ) :
    (stackSet s j v).regs.length = s.regs.length := by
  simp [stackSet]

/-- C9: `ForRangeInit` with `start == end` jumps straight past the loop
body (the u16 offset to the loop-body opcode plus that opcode's 7-byte
length) and writes neither loop-variable register; otherwise the step
register receives the absolute value of the step, both the loop-visible
variable (`pc[4]`) and the user binding (`pc[5]`) are set to `start`, and
the byte at the offset is patched to `ForRange` when `start < end` and to
`ForRangeReverse` otherwise (in particular when `start > end`). -/
theorem forRangeInit_cases (ext : Extern) (s : VMState)
    (h42 : instGet s 4 ≠ instGet s 2) (h43 : instGet s 4 ≠ instGet s 3)
    (h52 : instGet s 5 ≠ instGet s 2) (h53 : instGet s 5 ≠ instGet s 3)
    (hlen3 : s.sp + instGet s 3 < s.regs.length)
    (hlen4 : s.sp + instGet s 4 < s.regs.length)
    (hlen5 : s.sp + instGet s 5 < s.regs.length)
    (hoff : s.pc + READ_U16 s 6 < s.inst.length) :
    (ext.feq (forRangeStart ext s) (forRangeEnd ext s) = true →
      ∃ s2, caseForRangeInit ext s = .next s2 ∧
        s2.pc = s.pc + (READ_U16 s 6 + 7) ∧
        stackGet s2 (instGet s 4) = stackGet s (instGet s 4) ∧
        stackGet s2 (instGet s 5) = stackGet s (instGet s 5) ∧
        s2.inst = s.inst) ∧
    (ext.feq (forRangeStart ext s) (forRangeEnd ext s) = false →
      ∃ s2, caseForRangeInit ext s = .next s2 ∧
        s2.pc = s.pc + 8 ∧
        stackGet s2 (instGet s 3) = forRangeStep ext s ∧
        stackGet s2 (instGet s 4) = forRangeStart ext s ∧
        stackGet s2 (instGet s 5) = forRangeStart ext s ∧
        instGetAbs s2 (s.pc + READ_U16 s 6) =
          (if ext.flt (forRangeStart ext s) (forRangeEnd ext s) then CodeForRange
           else CodeForRangeReverse)) := by
  constructor
  · intro hfeq
    have heq : caseForRangeInit ext s = .next { stackSet
        (stackSet s (instGet s 2) (forRangeEnd ext s)) (instGet s 3) (forRangeStep ext s) with
        pc := s.pc + (READ_U16 s 6 + 7) } := by
      unfold caseForRangeInit
      dsimp only
      rw [if_pos hfeq]
    refine ⟨_, heq, rfl, ?_, ?_, rfl⟩
    · rw [stackGet_pcUpd, stackGet_stackSet_ne _ _ _ _ (Ne.symm h43),
        stackGet_stackSet_ne _ _ _ _ (Ne.symm h42)]
    · rw [stackGet_pcUpd, stackGet_stackSet_ne _ _ _ _ (Ne.symm h53),
        stackGet_stackSet_ne _ _ _ _ (Ne.symm h52)]
  · intro hfeq
    have heq : caseForRangeInit ext s = .next { instSetAbs (stackSet (stackSet (stackSet
        (stackSet s (instGet s 2) (forRangeEnd ext s)) (instGet s 3) (forRangeStep ext s))
        (instGet s 4) (forRangeStart ext s)) (instGet s 5) (forRangeStart ext s))
        (s.pc + READ_U16 s 6)
        (if ext.flt (forRangeStart ext s) (forRangeEnd ext s) then CodeForRange
         else CodeForRangeReverse) with
        pc := s.pc + 8 } := by
      unfold caseForRangeInit
      dsimp only
      rw [if_neg (by simp [hfeq])]
    refine ⟨_, heq, rfl, ?_, ?_, ?_, ?_⟩
    · rw [stackGet_pcUpd, stackGet_instSetAbs, stackGet_stackSet_ne _ _ _ _ h53,
        stackGet_stackSet_ne _ _ _ _ h43,
        stackGet_stackSet_self _ _ _ (by simpa [stackSet] using hlen3)]
    · rw [stackGet_pcUpd, stackGet_instSetAbs]
      by_cases h54 : instGet s 5 = instGet s 4
      · rw [h54, stackGet_stackSet_self _ _ _ (by simpa [stackSet] using hlen4)]
      · rw [stackGet_stackSet_ne _ _ _ _ h54,
          stackGet_stackSet_self _ _ _ (by simpa [stackSet] using hlen4)]
    · rw [stackGet_pcUpd, stackGet_instSetAbs,
        stackGet_stackSet_self _ _ _ (by simpa [stackSet] using hlen5)]
    · rw [instGetAbs_pcUpd, instGetAbs_instSetAbs_self _ _ _ (by simpa [stackSet] using hoff)]

/-- A concrete state for the C9 witness: `ForRangeInit` over registers
`start = 10`, `end = 20`, `step = 1`, loop variables in registers 3 and 4,
loop-body offset 8. -/
def sForRange : VMState :=
  { inst := [89, 0, 1, 2, 3, 4, 8, 0, 90, 0, 0, 0, 0, 0, 0], regs := [10, 20, 1, 0, 0],
    sp := 0, pc := 0, stackEnd := 5, tryBuf := [], tryLen := 0,
    panicType := PanicT.nonePanic, panicPayload := "", heap := [], curFiber := 0 }

/-- Witness for C9 on `sForRange` (the `start != end` branch). -/
theorem forRangeInit_cases_witness :
    ext0.feq (forRangeStart ext0 sForRange) (forRangeEnd ext0 sForRange) = false ∧
    (∃ s2, caseForRangeInit ext0 sForRange = .next s2 ∧
      s2.pc = sForRange.pc + 8 ∧
      stackGet s2 (instGet sForRange 3) = forRangeStep ext0 sForRange ∧
      stackGet s2 (instGet sForRange 4) = forRangeStart ext0 sForRange ∧
      stackGet s2 (instGet sForRange 5) = forRangeStart ext0 sForRange ∧
      instGetAbs s2 (sForRange.pc + READ_U16 sForRange 6) =
        (if ext0.flt (forRangeStart ext0 sForRange) (forRangeEnd ext0 sForRange) then CodeForRange
         else CodeForRangeReverse)) :=
  ⟨by decide,
    (forRangeInit_cases ext0 sForRange (by decide) (by decide) (by decide) (by decide)
      (by decide) (by decide) (by decide) (by decide)).2 (by decide)⟩

/-- The `tryStack.len` field of the state a step result carries. -/
def stepTryLen : StepResult → ℕ
  | .next s => s.tryLen
  | .ret _ s => s.tryLen
  | .fatal => 0

/-- A concrete state for C1: one pushed try frame (`tryLen = 1`), about to
execute `PopTry` with jump offset 5. -/
def sTryPop : VMState :=
  { inst := [61, 5, 0], regs := [], sp := 0, pc := 0, stackEnd := 0,
    tryBuf := [default], tryLen := 1, panicType := PanicT.nonePanic, panicPayload := "",
    heap := [], curFiber := 0 }

/-- C1 (code bug): on a state with one try frame, `PopTry` leaves the
try-frame counter at 2 — `vm->tryStack.len += 1` increments instead of
decrementing, so the claimed pop-one-frame semantics fails — while
`PushTry` on the same state also moves the counter from 1 to 2, and the
`PopTry` jump `pc += READ_U16(1)` does land past the handler. -/
theorem popTry_increments_tryLen :
    stepTryLen (casePopTry sTryPop) = 2 ∧
    casePopTry sTryPop = .next { sTryPop with tryLen := 2, pc := 5 } ∧
    sTryPop.tryLen = 1 ∧
    stepTryLen (casePushTry ext0 sTryPop) = 2 := by
  decide
